import Mathlib

/-!
Verification of the Kalamar core: the lazy, alias-normalizing property
resolver of `src/kalamar/item.py` and the relational adapter of
`src/kalamar/storage/dbapi.py`, shallowly embedded over assoc-list
dictionaries and an explicit-state Item model.
-/

set_option autoImplicit false

namespace Kalamar

/-- Python values stored in property dictionaries: integers, strings, and
the Python `None` sentinel returned for a key absent from both stores. -/
inductive PyVal where
  | int : Int → PyVal
  | str : String → PyVal
  | none : PyVal
deriving DecidableEq

/-- Python exceptions raised by the embedded code paths. -/
inductive PyErr where
  | nameError : PyErr
  | attributeError : PyErr
  | indexError : PyErr
  | keyError : PyErr
  | notImplementedError : PyErr
  | parseError : Nat → PyErr
deriving DecidableEq

/-- A Python dict, embedded as an association list in insertion order with
unique keys maintained by `dset`. -/
abbrev Dict := List (String × PyVal)

/-- Dict lookup: `d[key]` as an `Option` (`Option.none` models a KeyError in
a read position). -/
def dget : Dict → String → Option PyVal
  | [], _ => Option.none
  | (k, v) :: d, key => if k = key then some v else dget d key

/-- Dict assignment `d[key] = v`: replaces the value in place when the key is
present, appends otherwise — Python dict semantics, which never raise. -/
def dset : Dict → String → PyVal → Dict
  | [], key, v => [(key, v)]
  | (k, w) :: d, key, v => if k = key then (k, v) :: d else (k, w) :: dset d key v

/-- Membership test `key in d`. -/
def dmember (d : Dict) (key : String) : Bool := (dget d key).isSome

/-- `d.update(e)`: insert or replace every binding of `e` into `d`, in order.
CPython's `dict.update` writes the raw dict slots and does not go through an
overridden `__setitem__`, so the embedding applies `dset` directly. -/
def dupdate (d : Dict) : Dict → Dict
  | [] => d
  | (k, v) :: e => dupdate (dset d k v) e

/-- `d.keys()` as the insertion-ordered key list (Python 2 returns a list
snapshot). -/
def dkeys (d : Dict) : List String := d.map (fun p => p.1)

instance decEqExceptPyErrDict : DecidableEq (Except PyErr Dict)
  | Except.error a, Except.error b =>
      decidable_of_iff (a = b) (by constructor <;> (intro h; simp_all))
  | Except.error _, Except.ok _ => isFalse (by simp)
  | Except.ok _, Except.error _ => isFalse (by simp)
  | Except.ok a, Except.ok b =>
      decidable_of_iff (a = b) (by constructor <;> (intro h; simp_all))

/-- `aliases.get(key, key)`: normalize a property name through the alias
table (item.py line 292, 304: `key = self._item.aliases.get(key,key)`). -/
def aliasGet : List (String × String) → String → String
  | [], key => key
  | (a, b) :: t, key => if a = key then b else aliasGet t key

/-- The state of an `ItemProperties` instance (item.py lines 281-285):
`storage_properties` is the dict passed at construction,
`storage_properties_old` its deep copy taken at construction, `parsed` is the
contents of the underlying `dict` superclass (the parsed values), and
`loaded` the `_loaded` flag, initially false. -/
structure ItemProperties where
  storage_properties : Dict
  storage_properties_old : Dict
  parsed : Dict
  loaded : Bool
deriving DecidableEq

/-- An `Item` (item.py lines 58-74) together with its properties. The
back-reference `ItemProperties._item` is flattened into one record.
`parseResult` is what the variant's `_custom_parse_data` returns when invoked
(or the exception it raises); `parseCount` instruments the model with the
number of `_custom_parse_data` invocations so the lazy-load-once property can
be stated. This model is for an Item holding its own storage dict; object
identity of the shared default argument is modelled separately by `ItemRef`. -/
structure Item where
  aliases : List (String × String)
  parseResult : Except PyErr Dict
  props : ItemProperties
  parseCount : Nat
deriving DecidableEq

/-- `Item.__init__` (lines 58-74) with `ItemProperties.__init__`
(lines 281-285): storage values as supplied, a deep-copied snapshot, empty
parsed values, `_loaded = False`. -/
def Item.init (aliases : List (String × String)) (pr : Except PyErr Dict)
    (sp : Dict) : Item :=
  ⟨aliases, pr, ⟨sp, sp, [], false⟩, 0⟩

/-- Lines 291-300 of `ItemProperties.__getitem__`: normalize the key, then
try `storage_properties[key]`, on KeyError try the dict superclass entry, on
KeyError resolve to `None`. -/
def resolveProp (aliases : List (String × String)) (storage parsed : Dict)
    (key : String) : PyVal :=
  match dget storage (aliasGet aliases key) with
  | some v => v
  | Option.none =>
      match dget parsed (aliasGet aliases key) with
      | some v => v
      | Option.none => PyVal.none

/-- `Item._parse_data` (lines 187-191): open the stream, call
`_custom_parse_data`, merge the result into the underlying dict via
`self.properties.update(props)`. A failure inside the variant's parse (or the
open) propagates and leaves the parsed values unmodified. The invocation
counter increments on every attempt. -/
def Item.parse_data (it : Item) : Item × Except PyErr Unit :=
  match it.parseResult with
  | Except.error e => ({ it with parseCount := it.parseCount + 1 }, Except.error e)
  | Except.ok ps =>
      ({ it with
          parseCount := it.parseCount + 1
          props := { it.props with parsed := dupdate it.props.parsed ps } },
       Except.ok ())

/-- `ItemProperties.__getitem__` (lines 287-300): when `_loaded` is false,
run `_parse_data` first — unconditionally, whatever the key — and only then
set `_loaded = True`; an exception in the parse skips the flag assignment.
Afterwards resolve the normalized key. -/
def Item.getitem (it : Item) (key : String) : Item × Except PyErr PyVal :=
  if it.props.loaded then
    (it, Except.ok (resolveProp it.aliases it.props.storage_properties
      it.props.parsed key))
  else
    match Item.parse_data it with
    | (it2, Except.error e) => (it2, Except.error e)
    | (it2, Except.ok _) =>
        ({ it2 with props := { it2.props with loaded := true } },
         Except.ok (resolveProp it2.aliases it2.props.storage_properties
           it2.props.parsed key))

/-- `ItemProperties.__setitem__` (lines 302-308): normalize the key, then
`self.storage_properties[key] = value`. A Python dict assignment never raises
KeyError, so the `except KeyError` branch writing into the dict superclass is
unreachable: every write lands in `storage_properties`. -/
def Item.setitem (it : Item) (key : String) (v : PyVal) : Item :=
  { it with props := { it.props with
      storage_properties := dset it.props.storage_properties (aliasGet it.aliases key) v } }

/-- A read or write access against an Item's properties. -/
inductive Access where
  | read : String → Access
  | write : String → PyVal → Access

/-- Whether an access is a property read. -/
def Access.isRead : Access → Bool
  | .read _ => true
  | .write _ _ => false

/-- Execute one access, keeping the resulting Item state. -/
def Item.runAccess (it : Item) : Access → Item
  | .read k => (Item.getitem it k).1
  | .write k v => Item.setitem it k v

/-- Execute a sequence of accesses. -/
def Item.runAll (it : Item) (ops : List Access) : Item :=
  ops.foldl Item.runAccess it

/-- A concrete item for the write-path evaluation: empty storage, trivial
parser, no aliases. -/
def itemC2 : Item := Item.init [] (Except.ok []) []

/-- C2: on the code as written, a write of a key absent from the storage
values still lands in `storage_properties`, and the parsed-values dict stays
empty — the `except KeyError` branch of `__setitem__` is unreachable because
a dict assignment never raises KeyError, so the claimed routing of absent
keys into the parsed-values map never happens. -/
theorem c2_absent_key_write_lands_in_storage :
    (Item.setitem itemC2 "x" (PyVal.int 5)).props.storage_properties
        = [("x", PyVal.int 5)]
    ∧ (Item.setitem itemC2 "x" (PyVal.int 5)).props.parsed = [] := by
  constructor
  · rfl
  · rfl

theorem setitem_preserves (it : Item) (key : String) (v : PyVal) :
    (Item.setitem it key v).props.loaded = it.props.loaded
    ∧ (Item.setitem it key v).parseCount = it.parseCount
    ∧ (Item.setitem it key v).parseResult = it.parseResult :=
  ⟨rfl, rfl, rfl⟩

theorem getitem_loaded (it : Item) (key : String) (h : it.props.loaded = true) :
    Item.getitem it key
      = (it, Except.ok (resolveProp it.aliases it.props.storage_properties
          it.props.parsed key)) := by
  unfold Item.getitem
  rw [h]
  simp

theorem getitem_unloaded_ok (it : Item) (key : String) (m : Dict)
    (h1 : it.props.loaded = false) (h2 : it.parseResult = Except.ok m) :
    (Item.getitem it key).1.props.loaded = true
    ∧ (Item.getitem it key).1.parseCount = it.parseCount + 1 := by
  unfold Item.getitem Item.parse_data
  rw [h1, h2]
  simp

theorem runAccess_loaded (it : Item) (a : Access) (h : it.props.loaded = true) :
    (Item.runAccess it a).props.loaded = true
    ∧ (Item.runAccess it a).parseCount = it.parseCount := by
  cases a with
  | read k =>
      show ((Item.getitem it k).1.props.loaded = true
        ∧ (Item.getitem it k).1.parseCount = it.parseCount)
      rw [getitem_loaded it k h]
      exact ⟨h, rfl⟩
  | write k v => exact ⟨h, rfl⟩

theorem runAll_loaded : ∀ (ops : List Access) (it : Item),
    it.props.loaded = true → (Item.runAll it ops).parseCount = it.parseCount
  | [], _, _ => rfl
  | a :: ops, it, h => by
      have h2 := runAccess_loaded it a h
      show (Item.runAll (Item.runAccess it a) ops).parseCount = it.parseCount
      rw [runAll_loaded ops _ h2.1, h2.2]

/-- C1: lazy-load-once. Starting from a freshly constructed Item whose
variant parser succeeds, any sequence of property reads and writes invokes
the content parse exactly once if the sequence contains at least one read
(whatever keys are read, including keys resolvable from storage values, since
the parse at lines 288-290 is unconditional on the key) and zero times if it
contains only writes. -/
theorem c1_lazy_parse_once : ∀ (ops : List Access) (it : Item) (m : Dict),
    it.parseResult = Except.ok m → it.props.loaded = false → it.parseCount = 0 →
    (Item.runAll it ops).parseCount = (if ops.any Access.isRead then 1 else 0)
  | [], _, _, _, _, h3 => by simpa using h3
  | Access.read k :: ops, it, m, h1, h2, h3 => by
      show (Item.runAll (Item.runAccess it (Access.read k)) ops).parseCount = _
      have hstep := getitem_unloaded_ok it k m h2 h1
      have hrest : (Item.runAll (Item.getitem it k).1 ops).parseCount
          = (Item.getitem it k).1.parseCount := runAll_loaded ops _ hstep.1
      show (Item.runAll (Item.getitem it k).1 ops).parseCount = _
      rw [hrest, hstep.2, h3]
      simp [Access.isRead]
  | Access.write k v :: ops, it, m, h1, h2, h3 => by
      show (Item.runAll (Item.setitem it k v) ops).parseCount = _
      have hrec := c1_lazy_parse_once ops (Item.setitem it k v) m h1 h2 h3
      rw [hrec]
      simp [Access.isRead]

/-- A concrete item for the C1 witness: one alias, a parser that derives one
property, one storage value. -/
def itemC1 : Item :=
  Item.init [("al", "a")] (Except.ok [("p", PyVal.int 1)]) [("a", PyVal.int 0)]

/-- The access sequence for the C1 witness: a write, then two reads (the
first read hits a key resolvable from storage values). -/
def opsC1 : List Access :=
  [Access.write "w" (PyVal.int 9), Access.read "al", Access.read "p"]

/-- Witness for C1 at a concrete Item and access sequence. -/
theorem c1_witness :
    (Item.runAll itemC1 opsC1).parseCount
      = (if opsC1.any Access.isRead then 1 else 0) :=
  c1_lazy_parse_once opsC1 itemC1 [("p", PyVal.int 1)] rfl rfl rfl

/-- C3: resolution order of a property read. When the Item is loaded, or its
parser succeeds, a read never raises; after normalization the storage entry
takes precedence, then the parsed entry, else the read resolves to the
Python None sentinel. -/
theorem c3_lookup_order (it : Item) (key : String)
    (h : it.props.loaded = true ∨ ∃ m, it.parseResult = Except.ok m) :
    (∃ v, (Item.getitem it key).2 = Except.ok v)
    ∧ (∀ v, dget it.props.storage_properties (aliasGet it.aliases key) = some v →
        resolveProp it.aliases it.props.storage_properties it.props.parsed key = v)
    ∧ (dget it.props.storage_properties (aliasGet it.aliases key) = Option.none →
        ∀ v, dget it.props.parsed (aliasGet it.aliases key) = some v →
        resolveProp it.aliases it.props.storage_properties it.props.parsed key = v)
    ∧ (dget it.props.storage_properties (aliasGet it.aliases key) = Option.none →
        dget it.props.parsed (aliasGet it.aliases key) = Option.none →
        resolveProp it.aliases it.props.storage_properties it.props.parsed key
          = PyVal.none) := by
  refine ⟨?_, ?_, ?_, ?_⟩
  · rcases h with h | ⟨m, hm⟩
    · rw [getitem_loaded it key h]
      exact ⟨_, rfl⟩
    · unfold Item.getitem Item.parse_data
      cases hl : it.props.loaded with
      | true => simp
      | false => rw [hm]; simp
  · intro v hv
    unfold resolveProp
    rw [hv]
  · intro hs v hv
    unfold resolveProp
    rw [hs, hv]
  · intro hs hp
    unfold resolveProp
    rw [hs, hp]

/-- A concrete loaded item for the C3 witness: storage value for `a`
conflicting with a parsed value for the same key, and a parsed-only key. -/
def itemC3 : Item :=
  ⟨[], Except.ok [], ⟨[("a", PyVal.int 1)], [("a", PyVal.int 1)],
    [("a", PyVal.int 2), ("b", PyVal.int 3)], true⟩, 1⟩

/-- Witness for C3: on a loaded item the read does not raise, the storage
value wins over the conflicting parsed value, the parsed-only key resolves,
and an absent key resolves to None. -/
theorem c3_witness :
    (∃ v, (Item.getitem itemC3 "a").2 = Except.ok v)
    ∧ resolveProp itemC3.aliases itemC3.props.storage_properties
        itemC3.props.parsed "a" = PyVal.int 1
    ∧ resolveProp itemC3.aliases itemC3.props.storage_properties
        itemC3.props.parsed "b" = PyVal.int 3
    ∧ resolveProp itemC3.aliases itemC3.props.storage_properties
        itemC3.props.parsed "zz" = PyVal.none := by
  have hA := c3_lookup_order itemC3 "a" (Or.inl rfl)
  have hB := c3_lookup_order itemC3 "b" (Or.inl rfl)
  have hZ := c3_lookup_order itemC3 "zz" (Or.inl rfl)
  exact ⟨hA.1, hA.2.1 (PyVal.int 1) rfl, hB.2.2.1 rfl (PyVal.int 3) rfl,
    hZ.2.2.2 rfl rfl⟩

/-- C10: when the variant's content parse raises on the first property read,
the read propagates the error, `_loaded` stays false (line 290 is skipped),
the parsed values are unmodified (the `update` at line 191 is never reached),
and a later read on the same Item invokes the parse again. -/
theorem c10_failed_parse_retries (it : Item) (k1 k2 : String) (e : PyErr)
    (h1 : it.props.loaded = false) (h2 : it.parseResult = Except.error e) :
    (Item.getitem it k1).2 = Except.error e
    ∧ (Item.getitem it k1).1.props.loaded = false
    ∧ (Item.getitem it k1).1.props.parsed = it.props.parsed
    ∧ (Item.getitem it k1).1.parseCount = it.parseCount + 1
    ∧ (Item.getitem (Item.getitem it k1).1 k2).1.parseCount
        = it.parseCount + 2 := by
  unfold Item.getitem Item.parse_data
  rw [h1, h2]
  simp [h1, h2]

/-- An item whose parser always raises, for the C10 witness. -/
def itemC10 : Item := Item.init [] (Except.error (PyErr.parseError 7)) [("a", PyVal.int 0)]

/-- Witness for C10 at a concrete failing parser. -/
theorem c10_witness :
    (Item.getitem itemC10 "a").2 = Except.error (PyErr.parseError 7)
    ∧ (Item.getitem itemC10 "a").1.props.loaded = false
    ∧ (Item.getitem itemC10 "a").1.props.parsed = itemC10.props.parsed
    ∧ (Item.getitem itemC10 "a").1.parseCount = itemC10.parseCount + 1
    ∧ (Item.getitem (Item.getitem itemC10 "a").1 "b").1.parseCount
        = itemC10.parseCount + 2 :=
  c10_failed_parse_retries itemC10 "a" "b" (PyErr.parseError 7) rfl rfl

/-- The dict comprehension of `Item.serialize` (item.py lines 153-154):
`dict((self.aliases.get(key,key), self.properties[key]) for key in
self.properties.keys())`, threading the state effects of each
`self.properties[key]` read. A failing parse inside a read propagates. -/
def serializeGo : Item → List String → Dict → Item × Except PyErr Dict
  | it, [], acc => (it, Except.ok acc)
  | it, k :: ks, acc =>
      match Item.getitem it k with
      | (it2, Except.ok v) => serializeGo it2 ks (dset acc (aliasGet it2.aliases k) v)
      | (it2, Except.error e) => (it2, Except.error e)

/-- Lines 153-154: the `props` map built by `Item.serialize`. The iteration
is over `self.properties.keys()`, which is the inherited `dict.keys()` — the
keys of the parsed-values dict only; `ItemProperties` does not override
`keys`, so storage-only keys are not visited. -/
def Item.serializeProps (it : Item) : Item × Except PyErr Dict :=
  serializeGo it (dkeys it.props.parsed) []

/-- `Item.serialize` (lines 150-155): build `props`, then evaluate
`return _serialize(self, props)`. There is no module-level `_serialize` in
item.py (the method is `self._serialize`, whose docstring says it is called
by `self.serialize`), so after building `props` the call raises NameError;
the function can never return normally, hence the error-only result type. -/
def Item.serialize (it : Item) : Item × PyErr :=
  match Item.serializeProps it with
  | (it2, Except.error e) => (it2, e)
  | (it2, Except.ok _) => (it2, PyErr.nameError)

/-- A loaded item with a storage-only key `a` and a parsed key `b`, for the
C8 evaluation. -/
def itemC8 : Item :=
  ⟨[], Except.ok [], ⟨[("a", PyVal.int 1)], [("a", PyVal.int 1)],
    [("b", PyVal.int 2)], true⟩, 1⟩

/-- C8: `serialize` on the code as written raises NameError (the call at
line 155 names a module-level `_serialize` that does not exist), and the
`props` map it assembles beforehand covers only the parsed-values keys —
the storage-only key `a` is absent — because `keys()` is the inherited
`dict.keys`, not the union of the two stores. -/
theorem c8_serialize_raises_and_omits_storage_keys :
    (Item.serialize itemC8).2 = PyErr.nameError
    ∧ (Item.serializeProps itemC8).2 = Except.ok [("b", PyVal.int 2)]
    ∧ dmember itemC8.props.storage_properties "a" = true := by
  refine ⟨rfl, ?_, rfl⟩
  rfl

/-- A database table, one dict per row. -/
abbrev DB := List Dict

/-- `DBAPIStorage.save` (dbapi.py lines 121-161): after fetching the
connection, primary keys and storage keys, line 127 evaluates
`item.serialize()` whose result would be assigned to the content column.
`serialize` always raises NameError, so the assignment, the `_content`
deletion, the UPDATE (line 140), the rowcount branch, the INSERT fallback,
the rollback and the commit (line 160) are all unreachable; the exception
propagates with the database untouched. -/
def save (db : DB) (item : Item) : (DB × Item) × PyErr :=
  match Item.serialize item with
  | (it2, e) => ((db, it2), e)

/-- A one-row table for the C4 evaluation. -/
def dbC4 : DB := [[("id", PyVal.int 1), ("v", PyVal.int 2)]]

/-- An item with a primary-key storage value, for the C4 evaluation. -/
def itemC4 : Item :=
  ⟨[], Except.ok [], ⟨[("id", PyVal.int 1), ("v", PyVal.int 2)],
    [("id", PyVal.int 1), ("v", PyVal.int 2)],
    [("_content", PyVal.str "c")], true⟩, 1⟩

/-- C4: `save` on the code as written never reaches the UPDATE: the call to
`item.serialize()` at line 127 raises NameError first, so no UPDATE, INSERT,
rowcount branch, rollback or commit happens and the table is unchanged. -/
theorem c4_save_fails_before_update :
    save dbC4 itemC4 = ((dbC4, itemC4), PyErr.nameError) := by
  rfl

/-- The comparison functions carried by search conditions. -/
inductive CmpOp where
  | eq | ne | gt | ge | lt | le
deriving DecidableEq

/-- Modelled from the spec: the comparison functions of
`kalamar.utils.operators` (module `kalamar/utils.py` is not under src/;
the `_storage_search` docstring says each condition's second component is one
of that table's functions). Applied as `funct(rowValue, condValue)`:
equality on any values, order on integers and on strings. -/
def CmpOp.eval : CmpOp → PyVal → PyVal → Bool
  | CmpOp.eq, a, b => decide (a = b)
  | CmpOp.ne, a, b => decide (¬ a = b)
  | CmpOp.gt, PyVal.int a, PyVal.int b => decide (b < a)
  | CmpOp.gt, PyVal.str a, PyVal.str b => decide (b < a)
  | CmpOp.gt, _, _ => false
  | CmpOp.ge, PyVal.int a, PyVal.int b => decide (b ≤ a)
  | CmpOp.ge, PyVal.str a, PyVal.str b => decide (b ≤ a)
  | CmpOp.ge, _, _ => false
  | CmpOp.lt, PyVal.int a, PyVal.int b => decide (a < b)
  | CmpOp.lt, PyVal.str a, PyVal.str b => decide (a < b)
  | CmpOp.lt, _, _ => false
  | CmpOp.le, PyVal.int a, PyVal.int b => decide (a ≤ b)
  | CmpOp.le, PyVal.str a, PyVal.str b => decide (a ≤ b)
  | CmpOp.le, _, _ => false

/-- A search condition: (property name, comparison function, value). -/
structure Condition where
  name : String
  op : CmpOp
  value : PyVal
deriving DecidableEq

/-- Lookup in a string-keyed table (the adapter's operator dict). -/
def tableGet : List (String × String) → String → Option String
  | [], _ => Option.none
  | (k, v) :: t, key => if k = key then some v else tableGet t key

/-- dbapi.py lines 39-46: the supported operator table of `DBAPIStorage`. -/
def operatorTable : List (String × String) :=
  [("=", "="), ("!=", "!="), (">", ">"), (">=", ">="), ("<", "<"), ("<=", "<=")]

/-- dbapi.py lines 50-51: the inverse operator map built in `__init__`,
sending a condition function back to its symbol. -/
def operators_from_function : CmpOp → String
  | CmpOp.eq => "="
  | CmpOp.ne => "!="
  | CmpOp.gt => ">"
  | CmpOp.ge => ">="
  | CmpOp.lt => "<"
  | CmpOp.le => "<="

/-- dbapi.py lines 90-96: pushdown of the last condition in
`_storage_search`. The SQL operator is looked up (`oper =
self.operators[oper]`, line 92) and then discarded: the clause appended at
line 93 is always `name=?` with the condition's value bound. An unsupported
operator (KeyError at line 92) defers the condition to client-side
filtering. -/
def pushLastClause (c : Condition) : Option (String × PyVal) :=
  match tableGet operatorTable (operators_from_function c.op) with
  | some _ => some (c.name, c.value)
  | Option.none => Option.none

/-- SQL semantics of the emitted `name=?` clause: a row is returned when the
named column equals the bound parameter. -/
def sqlEqMatches (cl : String × PyVal) (row : Dict) : Bool :=
  decide (dget row cl.1 = some cl.2)

/-- dbapi.py lines 109-112: client-side evaluation of a condition against a
fetched row, `funct(line[name], value)`. (A column absent from the row would
raise KeyError in the source; rows in this development carry the
condition's column.) -/
def condHolds (c : Condition) (row : Dict) : Bool :=
  match dget row c.name with
  | some v => CmpOp.eval c.op v c.value
  | Option.none => false

/-- The rows produced for a single condition as the adapter pushes it: rows
matching the emitted SQL clause when the operator is supported, otherwise a
full fetch filtered client-side. -/
def pushedSearch (table : DB) (c : Condition) : DB :=
  match pushLastClause c with
  | some cl => table.filter (fun row => sqlEqMatches cl row)
  | Option.none => table.filter (fun row => condHolds c row)

/-- The specification side of the claimed equivalence: fetch the whole table
and evaluate the condition in process. -/
def fullScanSearch (table : DB) (c : Condition) : DB :=
  table.filter (fun row => condHolds c row)

/-- The condition `a > 5` and a one-row table with `a = 7`. -/
def condC5 : Condition := ⟨"a", CmpOp.gt, PyVal.int 5⟩

/-- The table for the C5 evaluation. -/
def dbC5 : DB := [[("a", PyVal.int 7)]]

/-- C5: pushdown is not equivalent to in-process evaluation on the code as
written. The supported operator `>` is pushed, but as the equality clause
`a=?`, so the SQL result drops the row with `a = 7` even though `7 > 5`
holds; the full-scan in-process evaluation keeps it. -/
theorem c5_pushdown_not_equivalent :
    pushLastClause condC5 = some ("a", PyVal.int 5)
    ∧ pushedSearch dbC5 condC5 = []
    ∧ fullScanSearch dbC5 condC5 = [[("a", PyVal.int 7)]] := by
  refine ⟨rfl, rfl, ?_⟩
  rfl

/-- Python `str.split` with a one-character separator, over strings as char
lists; it always returns at least one piece. -/
def pySplit (sep : Char) : List Char → List (List Char)
  | [] => [[]]
  | c :: cs =>
      if c = sep then [] :: pySplit sep cs
      else
        match pySplit sep cs with
        | [] => [[c]]
        | p :: ps => (c :: p) :: ps

/-- Interleave a separator between pieces: the shape of a neutral request
with one `?` marker between consecutive pieces. -/
def joinWith (sep : Char) : List (List Char) → List Char
  | [] => []
  | [p] => p
  | p :: q :: ps => p ++ sep :: joinWith sep (q :: ps)

theorem pySplit_ne_nil (sep : Char) : ∀ (l : List Char), pySplit sep l ≠ []
  | [] => by simp [pySplit]
  | c :: cs => by
      simp only [pySplit]
      by_cases hc : c = sep
      · rw [if_pos hc]; simp
      · rw [if_neg hc]
        cases pySplit sep cs with
        | nil => simp
        | cons p ps => simp

theorem pySplit_no_sep (sep : Char) : ∀ (l : List Char), sep ∉ l →
    pySplit sep l = [l]
  | [], _ => rfl
  | c :: cs, h => by
      have hc : ¬ c = sep := fun hh => h (by rw [hh]; exact List.mem_cons_self sep cs)
      have hcs : sep ∉ cs := fun hh => h (List.mem_cons_of_mem c hh)
      simp only [pySplit, if_neg hc, pySplit_no_sep sep cs hcs]

theorem pySplit_append (sep : Char) : ∀ (p rest : List Char), sep ∉ p →
    pySplit sep (p ++ sep :: rest) = p :: pySplit sep rest
  | [], rest, _ => by simp [pySplit]
  | c :: p, rest, h => by
      have hc : ¬ c = sep := fun hh => h (by rw [hh]; exact List.mem_cons_self sep p)
      have hp : sep ∉ p := fun hh => h (List.mem_cons_of_mem c hh)
      rw [List.cons_append]
      simp only [pySplit, if_neg hc, pySplit_append sep p rest hp]

theorem pySplit_joinWith (sep : Char) : ∀ (parts : List (List Char)),
    parts ≠ [] → (∀ p, p ∈ parts → sep ∉ p) →
    pySplit sep (joinWith sep parts) = parts
  | [], h, _ => absurd rfl h
  | [p], _, h2 => by
      show pySplit sep p = [p]
      exact pySplit_no_sep sep p (h2 p (by simp))
  | p :: q :: ps, _, h2 => by
      show pySplit sep (p ++ sep :: joinWith sep (q :: ps)) = p :: q :: ps
      rw [pySplit_append sep p _ (h2 p (by simp)),
        pySplit_joinWith sep (q :: ps) (by simp)
          (fun x hx => h2 x (List.mem_cons_of_mem p hx))]

/-- dbapi.py lines 193-201 (numeric style): the generator yields `parts[0]`,
then `:1`, `:2`, ... prepended to the pieces that followed each marker.
(`parts` from `str.split` is never empty; the nil branch is unreachable.) -/
def joinNumeric : List (List Char) → List Char
  | [] => []
  | p :: ps =>
      p ++ (ps.enum.map (fun ip => ':' :: ((toString (ip.1 + 1)).data ++ ip.2))).flatten

/-- dbapi.py lines 203-211 (named style): the generator yields `parts[0]`,
then `:name0`, `:name1`, ... prepended to the following pieces. -/
def joinNamed : List (List Char) → List Char
  | [] => []
  | p :: ps =>
      p ++ (ps.enum.map (fun ip => ':' :: (("name" ++ toString ip.1).data ++ ip.2))).flatten

/-- DB-API placeholder dialects (`connection.paramstyle`): the five
enumerated styles plus any other reported string. -/
inductive ParamStyle where
  | qmark | numeric | named | format | pyformat
  | other : String → ParamStyle
deriving DecidableEq

/-- The parameters returned by `_format_request`: a list, or the name→value
dict built for the named style. -/
inductive Params where
  | positional : List PyVal → Params
  | named : List (String × PyVal) → Params
deriving DecidableEq

/-- `DBAPIStorage._format_request` (dbapi.py lines 176-226). qmark: request
and parameters unchanged. numeric / named: split on `?` and rejoin with
numbered / named markers; named also converts the parameters into the
`name0`, `name1`, ... dict. format / pyformat: `raise NotImplementedError`.
Any other style: line 223 merely constructs
`UnsupportedParameterStyleError(style)` without raising it, so control falls
through to the return and the request and parameters come back unchanged. -/
def format_request (style : ParamStyle) (request : List Char)
    (parameters : List PyVal) : Except PyErr (List Char × Params) :=
  match style with
  | ParamStyle.qmark => Except.ok (request, Params.positional parameters)
  | ParamStyle.numeric =>
      Except.ok (joinNumeric (pySplit '?' request), Params.positional parameters)
  | ParamStyle.named =>
      Except.ok (joinNamed (pySplit '?' request),
        Params.named (parameters.enum.map (fun iv => ("name" ++ toString iv.1, iv.2))))
  | ParamStyle.format => Except.error PyErr.notImplementedError
  | ParamStyle.pyformat => Except.error PyErr.notImplementedError
  | ParamStyle.other _ => Except.ok (request, Params.positional parameters)

/-- C6: dialect rewriting of a neutral request. For a request assembled from
marker-free pieces joined by `?` (N markers) and N parameters: qmark returns
request and parameters unchanged; numeric replaces the i-th marker (1-based)
with `:i`; named replaces the i-th marker (0-based) with `:name(i)` and turns
the parameter list into the map name0 ↦ v0, name1 ↦ v1, .... -/
theorem c6_format_request_dialects (parts : List (List Char)) (params : List PyVal)
    (h1 : parts ≠ []) (h2 : ∀ p, p ∈ parts → ('?' : Char) ∉ p)
    (h3 : params.length + 1 = parts.length) :
    format_request ParamStyle.qmark (joinWith '?' parts) params
      = Except.ok (joinWith '?' parts, Params.positional params)
    ∧ format_request ParamStyle.numeric (joinWith '?' parts) params
      = Except.ok (parts.headI ++ (parts.tail.enum.map
          (fun ip => ':' :: ((toString (ip.1 + 1)).data ++ ip.2))).flatten,
        Params.positional params)
    ∧ format_request ParamStyle.named (joinWith '?' parts) params
      = Except.ok (parts.headI ++ (parts.tail.enum.map
          (fun ip => ':' :: (("name" ++ toString ip.1).data ++ ip.2))).flatten,
        Params.named (params.enum.map (fun iv => ("name" ++ toString iv.1, iv.2)))) := by
  have hsplit := pySplit_joinWith '?' parts h1 h2
  refine ⟨rfl, ?_, ?_⟩
  · show Except.ok (joinNumeric (pySplit '?' (joinWith '?' parts)),
        Params.positional params) = _
    rw [hsplit]
    cases parts with
    | nil => exact absurd rfl h1
    | cons p ps => rfl
  · show Except.ok (joinNamed (pySplit '?' (joinWith '?' parts)),
        Params.named (params.enum.map (fun iv => ("name" ++ toString iv.1, iv.2)))) = _
    rw [hsplit]
    cases parts with
    | nil => exact absurd rfl h1
    | cons p ps => rfl

/-- The pieces of the spec's sample request
`SELECT * FROM t WHERE a=? AND b=?` around its two markers. -/
def partsC6 : List (List Char) :=
  ["SELECT * FROM t WHERE a=".data, " AND b=".data, "".data]

/-- Two bound parameters for the sample request. -/
def paramsC6 : List PyVal := [PyVal.int 10, PyVal.int 20]

/-- Witness for C6 at the spec's sample request and two parameters. -/
theorem c6_witness :
    format_request ParamStyle.qmark (joinWith '?' partsC6) paramsC6
      = Except.ok (joinWith '?' partsC6, Params.positional paramsC6)
    ∧ format_request ParamStyle.numeric (joinWith '?' partsC6) paramsC6
      = Except.ok (partsC6.headI ++ (partsC6.tail.enum.map
          (fun ip => ':' :: ((toString (ip.1 + 1)).data ++ ip.2))).flatten,
        Params.positional paramsC6)
    ∧ format_request ParamStyle.named (joinWith '?' partsC6) paramsC6
      = Except.ok (partsC6.headI ++ (partsC6.tail.enum.map
          (fun ip => ':' :: (("name" ++ toString ip.1).data ++ ip.2))).flatten,
        Params.named (paramsC6.enum.map (fun iv => ("name" ++ toString iv.1, iv.2)))) :=
  c6_format_request_dialects partsC6 paramsC6 (by decide) (by decide) (by decide)

/-- C7: for a dialect outside the enumerated set, `_format_request` does not
fail: the exception at line 223 is constructed but never raised, and the
request and parameter list are returned unchanged. The two printf-style
dialects do raise NotImplementedError as claimed. -/
theorem c7_unknown_style_returns_request_unchanged :
    format_request (ParamStyle.other "esoteric") "SELECT * FROM t WHERE a=?".data
        [PyVal.int 1]
      = Except.ok ("SELECT * FROM t WHERE a=?".data, Params.positional [PyVal.int 1])
    ∧ format_request ParamStyle.format "SELECT * FROM t WHERE a=?".data [PyVal.int 1]
      = Except.error PyErr.notImplementedError
    ∧ format_request ParamStyle.pyformat "SELECT * FROM t WHERE a=?".data [PyVal.int 1]
      = Except.error PyErr.notImplementedError :=
  ⟨rfl, rfl, rfl⟩

/-- A heap of dict objects, indexed by address: the identity-aware model
needed to express Python's mutable default arguments. -/
abbrev Heap := List Dict

/-- Dereference a dict address. -/
def hget (h : Heap) (a : Nat) : Dict := (h.get? a).getD []

/-- Overwrite the dict at an address. -/
def hset (h : Heap) (a : Nat) (d : Dict) : Heap := h.set a d

/-- An Item in the identity-aware model: `storage_properties` is a reference
to a heap dict (item.py line 283 stores the passed dict object itself,
without copying), while the parsed values (the `dict` superclass state) and
the `_loaded` flag are per-instance. -/
structure ItemRef where
  storageAddr : Nat
  parsed : Dict
  loaded : Bool
  aliases : List (String × String)
  parseResult : Except PyErr Dict
deriving DecidableEq

/-- The initial heap: the one dict created when the defaulted parameters
`accessor_properties={}` (line 58) and `storage_properties={}` (line 281)
were evaluated at function definition time, sitting at address 0. -/
def heap0 : Heap := [[]]

/-- Construction of an Item without explicitly supplied storage properties
(lines 58-74, 281-285): `storage_properties` is bound to the shared default
dict at address 0; the parsed dict is per-instance and empty. -/
def mkItemDefault (aliases : List (String × String))
    (pr : Except PyErr Dict) : ItemRef :=
  ⟨0, [], false, aliases, pr⟩

/-- Lines 291-300 in the identity-aware model: resolve a normalized key
against the referenced storage dict, then the instance's parsed values,
else None. -/
def ItemRef.resolve (h : Heap) (it : ItemRef) (key : String) : PyVal :=
  resolveProp it.aliases (hget h it.storageAddr) it.parsed key

/-- `ItemProperties.__setitem__` (lines 302-308) in the identity-aware
model: every write lands in the referenced `storage_properties` dict (the
`except KeyError` branch is unreachable), mutating the shared object in
place. -/
def ItemRef.setitem (h : Heap) (it : ItemRef) (key : String) (v : PyVal) : Heap :=
  hset h it.storageAddr
    (dset (hget h it.storageAddr) (aliasGet it.aliases key) v)

/-- `ItemProperties.__getitem__` (lines 287-300) in the identity-aware
model: parse on the first read, then resolve against the referenced storage
dict first. -/
def ItemRef.getitem (h : Heap) (it : ItemRef) (key : String) :
    ItemRef × Except PyErr PyVal :=
  if it.loaded then (it, Except.ok (ItemRef.resolve h it key))
  else
    match it.parseResult with
    | Except.error e => (it, Except.error e)
    | Except.ok ps =>
        (⟨it.storageAddr, dupdate it.parsed ps, true, it.aliases, it.parseResult⟩,
         Except.ok (ItemRef.resolve h
           ⟨it.storageAddr, dupdate it.parsed ps, true, it.aliases, it.parseResult⟩ key))

/-- The first of two Items constructed without storage properties. -/
def item1C9 : ItemRef := mkItemDefault [] (Except.ok [])

/-- The second, independently constructed, Item. -/
def item2C9 : ItemRef := mkItemDefault [] (Except.ok [])

/-- C9: two Items constructed without explicitly supplied storage properties
share the module-level default dict, and every property write lands in that
shared dict, so a write of `x := 5` through the first Item is read back
through the second Item's property store (the claim expects `None` there). -/
theorem c9_default_items_share_storage :
    (ItemRef.getitem (ItemRef.setitem heap0 item1C9 "x" (PyVal.int 5))
        item2C9 "x").2 = Except.ok (PyVal.int 5) := by
  rfl

end Kalamar
